import Mathlib

/-
Verification of the chemistry simulation engine in
src/components/DigitalTwinSimulation.tsx.

The component keeps three rational-valued chemistry levels, updates them on a
2000 ms interval by a fixed rule table keyed on a randomly drawn interaction
kind, clamps every field to [0, 100], and maintains a newest-first log buffer
(capped at 5) and an oldest-first history buffer (capped at 15).  JavaScript
numbers on these inputs only ever take half-integer values, so the arithmetic
is exact and ℚ is a faithful carrier.

One modelling note that matters below: the interval callback created by the
useEffect closes over the `chemistry` state variable.  Because the effect has
`chemistry` in its dependency array, the closure is re-created after every
committed update, so within a single tick the closure variable `chemistry`
holds the PRE-tick state.  Both `setLogs` (line 108, `data: { ...chemistry }`)
and `setHistory` (line 115, `{ ...chemistry, time: timestamp }`) read this
closure variable, so both the log entry and the history point record the
pre-tick chemistry, while `setChemistry` (via `updateBioData`) installs the
post-tick chemistry.
-/

namespace NeuroChem

/-- The three neurochemical levels (source: `interface Chemistry`, lines 5-9).
Modelled over ℚ: all updates are by half-integer steps, hence exact. -/
structure Chemistry where
  Dopamine : ℚ
  Oxytocin : ℚ
  Cortisol : ℚ
  deriving DecidableEq, Repr

/-- The interaction kinds drawn each tick (source line 97:
the string union "physical_touch" | "argument" | "deep_talk" | "none"). -/
inductive InteractionKind where
  | physical_touch
  | argument
  | deep_talk
  | none
  deriving DecidableEq, Repr

/-- A log entry (source: `interface LogEntry`, lines 11-16).  The displayed
`event` string is a renaming of the interaction kind, so we keep the kind. -/
structure LogEntry where
  id : Nat
  event : InteractionKind
  data : Chemistry
  timestamp : String
  deriving DecidableEq, Repr

/-- A history point (source line 26: a chemistry record extended with a
`time: string` field). -/
structure HistoryPoint where
  chemistry : Chemistry
  time : String
  deriving DecidableEq, Repr

/-- JavaScript `Math.max` on two (non-NaN) numbers. -/
def jsMax (a b : ℚ) : ℚ := if a ≤ b then b else a

/-- JavaScript `Math.min` on two (non-NaN) numbers. -/
def jsMin (a b : ℚ) : ℚ := if a ≤ b then a else b

/-- Clamping of one field (source lines 87-89:
`Math.max(0, Math.min(100, x))`). -/
def clamp (x : ℚ) : ℚ := jsMax 0 (jsMin 100 x)

/-- The chemistry transition (source: `updateBioData`, lines 64-92).  The
`none` branch mutates the three fields of `next` in sequence, but each
assignment reads only the field it writes, so the simultaneous record update
below is the same function. -/
def updateBioData (interactionType : InteractionKind) (prev : Chemistry) :
    Chemistry :=
  let next : Chemistry :=
    match interactionType with
    | .physical_touch =>
        { prev with
          Oxytocin := prev.Oxytocin + 15
          Cortisol := prev.Cortisol - 5
          Dopamine := prev.Dopamine + 5 }
    | .argument =>
        { prev with
          Cortisol := prev.Cortisol + 20
          Dopamine := prev.Dopamine - 10
          Oxytocin := prev.Oxytocin - 8 }
    | .deep_talk =>
        { prev with
          Oxytocin := prev.Oxytocin + 12
          Dopamine := prev.Dopamine + 8
          Cortisol := prev.Cortisol - 3 }
    | .none =>
        { Dopamine :=
            if prev.Dopamine > 50 then prev.Dopamine - 0.5
            else prev.Dopamine + 0.5
          Oxytocin :=
            if prev.Oxytocin > 50 then prev.Oxytocin - 0.5
            else prev.Oxytocin + 0.5
          Cortisol :=
            if prev.Cortisol > 20 then prev.Cortisol - 0.5
            else prev.Cortisol + 0.5 }
  { Dopamine := clamp next.Dopamine
    Oxytocin := clamp next.Oxytocin
    Cortisol := clamp next.Cortisol }

/-- A recommendation card (source: entries of the `list` in the
`recommendations` memo, lines 31-61). -/
structure Recommendation where
  type : String
  msg : String
  color : String
  deriving DecidableEq, Repr

/-- The stress-alert card (source lines 34-38). -/
def stressAlertRec : Recommendation :=
  { type := "STRESS ALERT"
    msg := "ระดับคอร์ติซอลสูงเกินเกณฑ์ แนะนำให้ทำสมาธิ 10 นาที หรือฝึกหายใจลึกๆ"
    color := "text-red-400 border-red-900/50 bg-red-950/20" }

/-- The bonding-deficit card (source lines 41-45). -/
def bondingDeficitRec : Recommendation :=
  { type := "BONDING DEFICIT"
    msg := "ระดับออกซิโตซินต่ำ แนะนำให้พูดคุยเชิงลึกหรือกอดคนรักเพื่อสร้างความผูกพัน"
    color := "text-purple-400 border-purple-900/50 bg-purple-950/20" }

/-- The low-reward card (source lines 48-52). -/
def lowRewardRec : Recommendation :=
  { type := "LOW REWARD"
    msg := "ระดับโดปามีนต่ำ แนะนำให้หากิจกรรมที่สร้างสรรค์หรือออกกำลังกายเบาๆ"
    color := "text-yellow-400 border-yellow-900/50 bg-yellow-950/20" }

/-- The optimal-state card (source lines 55-59). -/
def optimalStateRec : Recommendation :=
  { type := "OPTIMAL STATE"
    msg := "สภาวะทางเคมีในสมองอยู่ในเกณฑ์สมดุล (Equilibrium) ให้รักษากิจวัตรเดิมไว้"
    color := "text-emerald-400 border-emerald-900/50 bg-emerald-950/20" }

/-- The recommendation list (source: the `useMemo` body, lines 31-62).  Each
`list.push` is modelled as appending a singleton; the final branch fires when
nothing was pushed (`list.length === 0`). -/
def recommendations (chemistry : Chemistry) : List Recommendation :=
  let l0 : List Recommendation := []
  let l1 := if chemistry.Cortisol > 60 then l0 ++ [stressAlertRec] else l0
  let l2 := if chemistry.Oxytocin < 40 then l1 ++ [bondingDeficitRec] else l1
  let l3 := if chemistry.Dopamine < 30 then l2 ++ [lowRewardRec] else l2
  if l3.length = 0 then l3 ++ [optimalStateRec] else l3

/-- The whole engine state: the four `useState` cells plus the `logIdRef`
counter (source lines 19-28).  The interval handle itself is real-time
machinery and is not part of the data state. -/
structure EngineState where
  isRunning : Bool
  chemistry : Chemistry
  logs : List LogEntry
  history : List HistoryPoint
  logId : Nat
  deriving DecidableEq, Repr

/-- The initial values of the `useState`/`useRef` cells (source lines 19-28). -/
def initialState : EngineState :=
  { isRunning := false
    chemistry := { Dopamine := 50, Oxytocin := 50, Cortisol := 20 }
    logs := []
    history := []
    logId := 0 }

/-- JavaScript `l.slice(-n)` for n > 0: the last `n` elements (all of them
when the list is shorter). -/
def sliceLast (n : Nat) (l : List α) : List α := l.drop (l.length - n)

/-- The log entry built by a tick (source lines 105-110).  `data` is the
closure variable `chemistry`, i.e. the pre-tick state. -/
def mkLogEntry (s : EngineState) (event : InteractionKind) (timestamp : String) :
    LogEntry :=
  { id := s.logId, event := event, data := s.chemistry, timestamp := timestamp }

/-- The history point built by a tick (source line 115).  Its chemistry is the
closure variable `chemistry`, i.e. the pre-tick state. -/
def mkHistoryPoint (s : EngineState) (timestamp : String) : HistoryPoint :=
  { chemistry := s.chemistry, time := timestamp }

/-- One interval tick (source lines 96-117).  The drawn `event` and the
wall-clock `timestamp` are external inputs.  `setChemistry` applies
`updateBioData`; `setLogs` prepends the new entry and keeps the first 5
(`[newLog, ...prev].slice(0, 5)`); `setHistory` appends the new point and
keeps the last 15 (`[...prev, newPoint].slice(-15)`). -/
def tick (event : InteractionKind) (timestamp : String) (s : EngineState) :
    EngineState :=
  { isRunning := s.isRunning
    chemistry := updateBioData event s.chemistry
    logs := (mkLogEntry s event timestamp :: s.logs).take 5
    history := sliceLast 15 (s.history ++ [mkHistoryPoint s timestamp])
    logId := s.logId + 1 }

/-- Run a sequence of ticks, oldest first. -/
def runTicks (s : EngineState) : List (InteractionKind × String) → EngineState
  | [] => s
  | (e, t) :: rest => runTicks (tick e t s) rest

/-- `start()` (source line 148, `setIsRunning(true)` side of the toggle; the
effect at lines 94-126 then schedules the interval). -/
def start (s : EngineState) : EngineState := { s with isRunning := true }

/-- `stop()` (source line 148, `setIsRunning(false)` side of the toggle; the
effect then clears the interval).  No other state cell is touched. -/
def stop (s : EngineState) : EngineState := { s with isRunning := false }

/-- A control call: `start()` or `stop()`. -/
inductive ControlOp where
  | startOp
  | stopOp
  deriving DecidableEq, Repr

/-- Apply one control call. -/
def applyControl (op : ControlOp) (s : EngineState) : EngineState :=
  match op with
  | .startOp => start s
  | .stopOp => stop s

/-- Run a sequence of control calls (no ticks). -/
def runControls (s : EngineState) : List ControlOp → EngineState
  | [] => s
  | op :: rest => runControls (applyControl op s) rest

/-- Clamp all three fields, as the spec's step 3 describes. -/
def clampChem (c : Chemistry) : Chemistry :=
  { Dopamine := clamp c.Dopamine
    Oxytocin := clamp c.Oxytocin
    Cortisol := clamp c.Cortisol }

/-- The spec's delta table for `PhysicalTouch`:
oxytocin += 15, cortisol -= 5, dopamine += 5 (spec section 4.1, step 2). -/
def specPhysicalTouchDelta (c : Chemistry) : Chemistry :=
  { Dopamine := c.Dopamine + 5
    Oxytocin := c.Oxytocin + 15
    Cortisol := c.Cortisol - 5 }

/-- The spec's delta table for `Argument`:
cortisol += 20, dopamine -= 10, oxytocin -= 8 (spec section 4.1, step 2). -/
def specArgumentDelta (c : Chemistry) : Chemistry :=
  { Dopamine := c.Dopamine - 10
    Oxytocin := c.Oxytocin - 8
    Cortisol := c.Cortisol + 20 }

/-- The spec's delta table for `DeepTalk`:
oxytocin += 12, dopamine += 8, cortisol -= 3 (spec section 4.1, step 2). -/
def specDeepTalkDelta (c : Chemistry) : Chemistry :=
  { Dopamine := c.Dopamine + 8
    Oxytocin := c.Oxytocin + 12
    Cortisol := c.Cortisol - 3 }

/-- The spec's `None` drift: each field moves by 0.5 toward its baseline
(50, 50, 20) — decrement by 0.5 when strictly above the baseline, else
increment by 0.5 (spec section 4.1, step 2). -/
def specNoneDrift (c : Chemistry) : Chemistry :=
  { Dopamine := if c.Dopamine > 50 then c.Dopamine - 0.5 else c.Dopamine + 0.5
    Oxytocin := if c.Oxytocin > 50 then c.Oxytocin - 0.5 else c.Oxytocin + 0.5
    Cortisol := if c.Cortisol > 20 then c.Cortisol - 0.5 else c.Cortisol + 0.5 }

/-- All three fields lie in [0, 100]. -/
def inBounds (c : Chemistry) : Prop :=
  0 ≤ c.Dopamine ∧ c.Dopamine ≤ 100 ∧
  0 ≤ c.Oxytocin ∧ c.Oxytocin ≤ 100 ∧
  0 ≤ c.Cortisol ∧ c.Cortisol ≤ 100

instance (c : Chemistry) : Decidable (inBounds c) := by
  unfold inBounds
  infer_instance

unseal Rat.add Rat.sub Rat.ofScientific

theorem clamp_nonneg (x : ℚ) : 0 ≤ clamp x := by
  unfold clamp jsMax jsMin
  split_ifs <;> linarith

theorem clamp_le_hundred (x : ℚ) : clamp x ≤ 100 := by
  unfold clamp jsMax jsMin
  split_ifs <;> linarith

theorem inBounds_updateBioData (e : InteractionKind) (c : Chemistry) :
    inBounds (updateBioData e c) := by
  unfold inBounds updateBioData
  cases e <;>
    exact ⟨clamp_nonneg _, clamp_le_hundred _, clamp_nonneg _, clamp_le_hundred _,
      clamp_nonneg _, clamp_le_hundred _⟩

theorem inBounds_runTicks (evs : List (InteractionKind × String)) :
    ∀ s : EngineState, inBounds s.chemistry → inBounds (runTicks s evs).chemistry := by
  induction evs with
  | nil => exact fun s hs => hs
  | cons et rest ih =>
    intro s _
    obtain ⟨e, t⟩ := et
    exact ih (tick e t s) (inBounds_updateBioData e s.chemistry)

/-- C1: every state reachable from the initial state by any sequence of ticks
(with any interaction kinds and timestamps) has all three chemistry fields in
[0, 100]; in particular this holds after every tick. -/
theorem C1_chemistry_in_bounds (evs : List (InteractionKind × String)) :
    inBounds (runTicks initialState evs).chemistry :=
  inBounds_runTicks evs initialState (by decide)

/-- C2: for every chemistry state, the transition for each of the three
event kinds is the spec's delta table followed by clamping to [0, 100], and
from (50, 50, 20) one Argument yields (40, 42, 40) while one PhysicalTouch
yields (55, 65, 15). -/
theorem C2_delta_table :
    (∀ c, updateBioData .physical_touch c = clampChem (specPhysicalTouchDelta c)) ∧
    (∀ c, updateBioData .argument c = clampChem (specArgumentDelta c)) ∧
    (∀ c, updateBioData .deep_talk c = clampChem (specDeepTalkDelta c)) ∧
    updateBioData .argument ⟨50, 50, 20⟩ = ⟨40, 42, 40⟩ ∧
    updateBioData .physical_touch ⟨50, 50, 20⟩ = ⟨55, 65, 15⟩ :=
  ⟨fun _ => rfl, fun _ => rfl, fun _ => rfl, by decide, by decide⟩

/-- C3: applying the Argument transition to (0, 0, 0) yields (0, 0, 20):
dopamine and oxytocin are clamped at 0 and cortisol becomes 20. -/
theorem C3_argument_from_zero :
    updateBioData .argument ⟨0, 0, 0⟩ = ⟨0, 0, 20⟩ := by decide

set_option maxRecDepth 8000 in
/-- C4: the None transition moves each field by 0.5 toward its baseline
(decrement when strictly above 50/50/20, else increment), followed by the
clamp; and 20 consecutive None ticks from exactly (50, 50, 20) end in the
state (50, 50, 20). -/
theorem C4_none_drift_and_baseline :
    (∀ c, updateBioData .none c = clampChem (specNoneDrift c)) ∧
    (fun c => updateBioData .none c)^[20] ⟨50, 50, 20⟩ = ⟨50, 50, 20⟩ :=
  ⟨fun _ => rfl, by decide⟩

/-- C10: before any start() or tick, the engine state is exactly: chemistry
(50, 50, 20), not running, empty log, empty history, next log id 0. -/
theorem C10_initial_state :
    initialState.chemistry = ⟨50, 50, 20⟩ ∧ initialState.isRunning = false ∧
    initialState.logs = [] ∧ initialState.history = [] ∧ initialState.logId = 0 :=
  ⟨rfl, rfl, rfl, rfl, rfl⟩

theorem tick_history_getLast (s : EngineState) (e : InteractionKind) (t : String) :
    (tick e t s).history.getLast? = some (mkHistoryPoint s t) := by
  show (sliceLast 15 (s.history ++ [mkHistoryPoint s t])).getLast? = _
  unfold sliceLast
  rw [List.getLast?_drop, if_neg, List.getLast?_concat]
  simp only [List.length_append, List.length_cons, List.length_nil]
  omega

/-- C7: the log entry created by a tick sits at the head of the newest-first
log and carries the pre-tick chemistry state paired with the tick's
interaction kind and timestamp. -/
theorem C7_log_carries_pre_tick_state (s : EngineState) (e : InteractionKind)
    (t : String) :
    (tick e t s).logs.head? =
      some { id := s.logId, event := e, data := s.chemistry, timestamp := t } :=
  rfl

/-- C8 counterexample: after one Argument tick from the initial state, the
history point just appended carries the pre-tick chemistry (50, 50, 20), not
the post-tick chemistry (40, 42, 40) — the claim that the appended point
carries the new post-transition state is false. -/
theorem C8_counterexample :
    ((tick .argument "12:00:00" initialState).history.getLast?).map
        HistoryPoint.chemistry ≠
      some (tick .argument "12:00:00" initialState).chemistry := by decide

/-- C8 amended: the history point appended by a tick carries the previous
(pre-tick) chemistry state — the same snapshot the tick's log entry carries —
together with the tick's timestamp. -/
theorem C8_history_carries_pre_tick_state (s : EngineState)
    (e : InteractionKind) (t : String) :
    (tick e t s).history.getLast? = some (mkHistoryPoint s t) :=
  tick_history_getLast s e t

theorem runControls_preserves_buffers (ops : List ControlOp) :
    ∀ s : EngineState, (runControls s ops).logs = s.logs ∧
      (runControls s ops).history = s.history := by
  induction ops with
  | nil => exact fun s => ⟨rfl, rfl⟩
  | cons op rest ih =>
    intro s
    cases op <;> exact ih _

/-- C9: stop() on an idle engine leaves the whole engine state unchanged, and
any sequence of start()/stop() calls from the initial state (i.e. before any
tick) leaves the log and the history empty, so reading them yields empty
sequences rather than an error. -/
theorem C9_stop_idle_noop_and_empty_reads :
    (∀ s : EngineState, s.isRunning = false → stop s = s) ∧
    (∀ ops : List ControlOp, (runControls initialState ops).logs = [] ∧
      (runControls initialState ops).history = []) := by
  constructor
  · intro s h
    cases s
    simp only [stop]
    rw [← h]
  · intro ops
    exact runControls_preserves_buffers ops initialState

/-- C9 witness: the initial state is idle and stop() leaves it unchanged. -/
theorem C9_witness : initialState.isRunning = false ∧ stop initialState = initialState :=
  ⟨rfl, C9_stop_idle_noop_and_empty_reads.1 initialState rfl⟩

theorem tick_logs_length (s : EngineState) (e : InteractionKind) (t : String) :
    (tick e t s).logs.length = min (s.logs.length + 1) 5 := by
  simp only [tick, List.length_take, List.length_cons]
  omega

theorem tick_history_length (s : EngineState) (e : InteractionKind) (t : String) :
    (tick e t s).history.length = min (s.history.length + 1) 15 := by
  simp only [tick, sliceLast, List.length_drop, List.length_append,
    List.length_cons, List.length_nil]
  omega

theorem runTicks_buffer_bounds (evs : List (InteractionKind × String)) :
    ∀ s : EngineState, s.logs.length ≤ 5 → s.history.length ≤ 15 →
      (runTicks s evs).logs.length ≤ 5 ∧ (runTicks s evs).history.length ≤ 15 := by
  induction evs with
  | nil => exact fun s hl hh => ⟨hl, hh⟩
  | cons et rest ih =>
    intro s _ _
    obtain ⟨e, t⟩ := et
    refine ih (tick e t s) ?_ ?_
    · rw [tick_logs_length]; omega
    · rw [tick_history_length]; omega

/-- All ids stored in the log are below the next id to be allocated, and the
log is strictly decreasing in id (newest first). -/
def LogIdsInv (s : EngineState) : Prop :=
  (∀ x ∈ s.logs, x.id < s.logId) ∧ s.logs.Pairwise (fun a b => b.id < a.id)

theorem tick_logIdsInv {s : EngineState} (h : LogIdsInv s) (e : InteractionKind)
    (t : String) : LogIdsInv (tick e t s) := by
  obtain ⟨hlt, hpw⟩ := h
  have hcons : (mkLogEntry s e t :: s.logs).Pairwise (fun a b => b.id < a.id) := by
    rw [List.pairwise_cons]
    exact ⟨fun b hb => hlt b hb, hpw⟩
  constructor
  · intro x hx
    have hx' : x ∈ mkLogEntry s e t :: s.logs := List.mem_of_mem_take hx
    rcases List.mem_cons.mp hx' with hx'' | hx''
    · subst hx''; exact Nat.lt_succ_self _
    · exact Nat.lt_succ_of_lt (hlt x hx'')
  · exact hcons.sublist (List.take_sublist 5 _)

theorem runTicks_logIdsInv (evs : List (InteractionKind × String)) :
    ∀ s : EngineState, LogIdsInv s → LogIdsInv (runTicks s evs) := by
  induction evs with
  | nil => exact fun s hs => hs
  | cons et rest ih =>
    intro s hs
    obtain ⟨e, t⟩ := et
    exact ih (tick e t s) (tick_logIdsInv hs e t)

theorem tick_history_dropLast (s : EngineState) (e : InteractionKind)
    (t : String) : (tick e t s).history.dropLast <:+ s.history := by
  show (sliceLast 15 (s.history ++ [mkHistoryPoint s t])).dropLast <:+ s.history
  unfold sliceLast
  rw [List.drop_append_of_le_length
    (by simp only [List.length_append, List.length_cons, List.length_nil]; omega),
    List.dropLast_concat]
  exact List.drop_suffix _ _

/-- C5: buffer shape.  First part: along any tick sequence from the initial
state, the log holds at most 5 entries and the history at most 15 points.
Second part: one tick prepends exactly one log entry (the rest being the
first 4 old entries, so the oldest is dropped when over 5) and appends
exactly one history point at the end (everything before it being a suffix of
the old history, so the oldest is dropped when over 15), with the lengths
growing by one up to the caps.  Third part: the log is strictly decreasing in
id, i.e. ordered newest first; the history, being grown only at the end,
is ordered oldest first. -/
theorem C5_buffer_shape :
    (∀ evs, (runTicks initialState evs).logs.length ≤ 5 ∧
      (runTicks initialState evs).history.length ≤ 15) ∧
    (∀ (s : EngineState) (e : InteractionKind) (t : String),
      (tick e t s).logs.head? = some (mkLogEntry s e t) ∧
      (tick e t s).logs.tail = s.logs.take 4 ∧
      (tick e t s).logs.length = min (s.logs.length + 1) 5 ∧
      (tick e t s).history.getLast? = some (mkHistoryPoint s t) ∧
      (tick e t s).history.dropLast <:+ s.history ∧
      (tick e t s).history.length = min (s.history.length + 1) 15) ∧
    (∀ evs, ((runTicks initialState evs).logs.map LogEntry.id).Pairwise
      (fun a b => b < a)) := by
  refine ⟨?_, ?_, ?_⟩
  · exact fun evs => runTicks_buffer_bounds evs initialState (by decide) (by decide)
  · intro s e t
    exact ⟨rfl, rfl, tick_logs_length s e t, tick_history_getLast s e t,
      tick_history_dropLast s e t, tick_history_length s e t⟩
  · intro evs
    have h := (runTicks_logIdsInv evs initialState ⟨by simp [initialState], by simp [initialState]⟩).2
    exact (List.pairwise_map).mpr h

theorem recommendations_eq (c : Chemistry) :
    recommendations c =
      (if c.Cortisol > 60 then [stressAlertRec] else []) ++
      (if c.Oxytocin < 40 then [bondingDeficitRec] else []) ++
      (if c.Dopamine < 30 then [lowRewardRec] else []) ++
      (if c.Cortisol > 60 ∨ c.Oxytocin < 40 ∨ c.Dopamine < 30 then []
       else [optimalStateRec]) := by
  unfold recommendations
  by_cases h1 : c.Cortisol > 60 <;> by_cases h2 : c.Oxytocin < 40 <;>
    by_cases h3 : c.Dopamine < 30 <;> simp [h1, h2, h3]

/-- C6: the recommendation list is a pure function of the chemistry state;
it is never empty; it is the fixed-order concatenation putting the stress
card first (present iff cortisol > 60), the bonding card second (present iff
oxytocin < 40), the low-reward card third (present iff dopamine < 30); and
when cortisol ≤ 60, oxytocin ≥ 40 and dopamine ≥ 30 hold simultaneously the
list is exactly the single Optimal card. -/
theorem C6_recommendations (c : Chemistry) :
    recommendations c ≠ [] ∧
    recommendations c =
      (if c.Cortisol > 60 then [stressAlertRec] else []) ++
      (if c.Oxytocin < 40 then [bondingDeficitRec] else []) ++
      (if c.Dopamine < 30 then [lowRewardRec] else []) ++
      (if c.Cortisol > 60 ∨ c.Oxytocin < 40 ∨ c.Dopamine < 30 then []
       else [optimalStateRec]) ∧
    (stressAlertRec ∈ recommendations c ↔ c.Cortisol > 60) ∧
    (bondingDeficitRec ∈ recommendations c ↔ c.Oxytocin < 40) ∧
    (lowRewardRec ∈ recommendations c ↔ c.Dopamine < 30) ∧
    (c.Cortisol ≤ 60 → 40 ≤ c.Oxytocin → 30 ≤ c.Dopamine →
      recommendations c = [optimalStateRec]) := by
  have hm := recommendations_eq c
  refine ⟨?_, hm, ?_, ?_, ?_, ?_⟩
  · rw [hm]
    by_cases h1 : c.Cortisol > 60 <;> by_cases h2 : c.Oxytocin < 40 <;>
      by_cases h3 : c.Dopamine < 30 <;> simp [h1, h2, h3]
  · rw [hm]
    by_cases h1 : c.Cortisol > 60 <;> by_cases h2 : c.Oxytocin < 40 <;>
      by_cases h3 : c.Dopamine < 30 <;>
      simp [h1, h2, h3, stressAlertRec, bondingDeficitRec, lowRewardRec,
        optimalStateRec]
  · rw [hm]
    by_cases h1 : c.Cortisol > 60 <;> by_cases h2 : c.Oxytocin < 40 <;>
      by_cases h3 : c.Dopamine < 30 <;>
      simp [h1, h2, h3, stressAlertRec, bondingDeficitRec, lowRewardRec,
        optimalStateRec]
  · rw [hm]
    by_cases h1 : c.Cortisol > 60 <;> by_cases h2 : c.Oxytocin < 40 <;>
      by_cases h3 : c.Dopamine < 30 <;>
      simp [h1, h2, h3, stressAlertRec, bondingDeficitRec, lowRewardRec,
        optimalStateRec]
  · intro ha hb hc
    have h1 : ¬ c.Cortisol > 60 := not_lt.mpr ha
    have h2 : ¬ c.Oxytocin < 40 := not_lt.mpr hb
    have h3 : ¬ c.Dopamine < 30 := not_lt.mpr hc
    rw [hm]
    simp [h1, h2, h3]

/-- C6 witness: at the chemistry (50, 50, 20) all three thresholds are met
and the recommendation list is exactly the single Optimal card. -/
theorem C6_witness :
    (⟨50, 50, 20⟩ : Chemistry).Cortisol ≤ 60 ∧
    (40 : ℚ) ≤ (⟨50, 50, 20⟩ : Chemistry).Oxytocin ∧
    (30 : ℚ) ≤ (⟨50, 50, 20⟩ : Chemistry).Dopamine ∧
    recommendations ⟨50, 50, 20⟩ = [optimalStateRec] :=
  ⟨by decide, by decide, by decide,
    (C6_recommendations ⟨50, 50, 20⟩).2.2.2.2.2 (by decide) (by decide) (by decide)⟩

end NeuroChem
